import Mathlib

/-!
Verification of the cqi-fe frontend client against its specification.

The development shallowly embeds the parts of the TypeScript sources that the
checked properties are about:

* `src/lib/api.ts` — the backend result payload types, the pure
  `transformBackendResults` function, and the error propagation of the six
  HTTP operations of `ApiClient`;
* `src/pages/Dashboard.tsx` — the `topIssues` severity ordering and the
  job-monitoring effect (WebSocket plus interval polling and its cleanup),
  modelled as an explicit event-driven state machine;
* the chat markdown formatter (`processInlineFormatting`) — the four global
  regex-replace passes, modelled as character-list scanners.

Machine numbers of the claims are issue counts, so they are embedded as `Nat`
(scores as `Int`, since the score formulas subtract). Case folding uses
`String.toLower`; every severity and agent string involved is ASCII, where
it agrees with the JavaScript `toLowerCase`.
-/

/-! Data model of `src/lib/api.ts`. A JavaScript `Record<string, number>` is
embedded as an association list with first-key-wins lookup; fractional
JavaScript numbers (processing times, confidences) do not appear in any
checked property and are embedded as `Nat`. -/

structure IssueModel where
  severity : String
  title : String
  agent : String
  file : String
  line : Nat
  description : String
  fix : String
deriving Repr, DecidableEq

structure AgentPerformance where
  agent : String
  issues : Nat
  time : Nat
  confidence : Nat
  status : String
deriving Repr, DecidableEq

structure BackendAnalysisResult where
  file : String
  language : String
  lines : Nat
  total_issues : Nat
  processing_time : Nat
  tokens_used : Nat
  api_calls : Nat
  completed_agents : List String
  critical_issues : Nat
  high_issues : Nat
  medium_issues : Nat
  low_issues : Nat
  agent_performance : List AgentPerformance
  agent_breakdown : List (String × Nat)
  detailed_issues : List IssueModel
  timestamp : String
  job_id : String
deriving Repr, DecidableEq

structure BackendResultsResponse where
  success : Bool
  job_id : String
  results : List BackendAnalysisResult
  total_files : Nat
  completion_time : String
deriving Repr, DecidableEq

structure SeverityBreakdown where
  critical : Nat
  high : Nat
  medium : Nat
  low : Nat
deriving Repr, DecidableEq

structure Summary where
  total_files : Nat
  total_issues : Nat
  severity_breakdown : SeverityBreakdown
  agent_breakdown : List (String × Nat)
  overall_score : Int
deriving Repr, DecidableEq

structure Metrics where
  security_score : Int
  performance_score : Int
  code_quality_score : Int
  documentation_score : Int
deriving Repr, DecidableEq

structure Issue where
  title : String
  description : String
  severity : String
  agent : String
  line : Nat
  suggestion : String
  file : Option String
deriving Repr, DecidableEq

structure FileResult where
  file : String
  path : String
  language : String
  lines : Nat
  issues : List Issue
  issues_count : Nat
deriving Repr, DecidableEq

structure AnalysisResult where
  job_id : String
  summary : Summary
  metrics : Metrics
  files : List FileResult
  analysis_time : Nat
  timestamp : String
deriving Repr, DecidableEq

/-! The result transform (`transformBackendResults`, api.ts lines 240 to 322). -/

/-- JavaScript property access with numeric default: `m.k || 0`. A missing key
and a stored 0 both give 0. -/
def lookupCount (m : List (String × Nat)) (k : String) : Nat :=
  ((m.find? (fun p => p.1 == k)).map (fun p => p.2)).getD 0

/-- The `reduce((sum, file) => sum + f file, 0)` pattern of the transform. -/
def sumBy (f : BackendAnalysisResult → Nat) (rs : List BackendAnalysisResult) : Nat :=
  rs.foldl (fun s r => s + f r) 0

/-- JavaScript toLowerCase, embedded as per-character ASCII lowering over the
character list. This equals `String.toLower` (`String.map Char.toLower`)
but is stated over the list so that concrete instances reduce in the kernel. -/
def jsToLower (s : String) : String := String.mk (s.data.map Char.toLower)

/-- Per-file count of detailed issues whose severity lowercases to
"critical" (api.ts lines 248 to 254). -/
def criticalOfFile (r : BackendAnalysisResult) : Nat :=
  (r.detailed_issues.filter (fun i => jsToLower i.severity == "critical")).length

/-- `results.length > 0 ? results[0].agent_breakdown : \x7b\x7d` (api.ts line 272). -/
def firstAgentBreakdown (rs : List BackendAnalysisResult) : List (String × Nat) :=
  ((rs.head?).map (fun r => r.agent_breakdown)).getD []

/-- The per-issue field mapping inside the files transform
(api.ts lines 281 to 289). -/
def toFrontIssue (i : IssueModel) : Issue :=
  { title := i.title
    description := i.description
    severity := i.severity
    agent := i.agent
    line := i.line
    suggestion := i.fix
    file := some i.file }

/-- The per-file record mapping of the transform (api.ts lines 275 to 290). -/
def toFileResult (r : BackendAnalysisResult) : FileResult :=
  { file := r.file
    path := r.file
    language := r.language
    lines := r.lines
    issues_count := r.total_issues
    issues := r.detailed_issues.map toFrontIssue }

/-- `transformBackendResults` of api.ts, lines 240 to 322. -/
def transformBackendResults (b : BackendResultsResponse) : AnalysisResult :=
  let results := b.results
  let totalFiles := results.length
  let totalIssues := sumBy (fun r => r.total_issues) results
  let totalCriticalIssues := sumBy criticalOfFile results
  let totalHighIssues := sumBy (fun r => r.high_issues) results
  let totalMediumIssues := sumBy (fun r => r.medium_issues) results
  let totalLowIssues := sumBy (fun r => r.low_issues) results
  let agentBreakdown := firstAgentBreakdown results
  let files := results.map toFileResult
  let securityIssues := lookupCount agentBreakdown "security"
  let performanceIssues := lookupCount agentBreakdown "performance"
  let complexityIssues := lookupCount agentBreakdown "complexity"
  let documentationIssues := lookupCount agentBreakdown "documentation"
  { job_id := b.job_id
    summary :=
      { total_files := totalFiles
        total_issues := totalIssues
        severity_breakdown :=
          { critical := totalCriticalIssues
            high := totalHighIssues
            medium := totalMediumIssues
            low := totalLowIssues }
        agent_breakdown := agentBreakdown
        overall_score := max 0 (100 - 2 * (totalIssues : Int)) }
    metrics :=
      { security_score := max 0 (100 - 5 * (securityIssues : Int))
        performance_score := max 0 (100 - 4 * (performanceIssues : Int))
        code_quality_score := max 0 (100 - 3 * (complexityIssues : Int))
        documentation_score := max 0 (100 - 2 * (documentationIssues : Int)) }
    files := files
    analysis_time := sumBy (fun r => r.processing_time) results
    timestamp := b.completion_time }

/-- Score clamping: every value of the `max 0 (100 - w * n)` form lies
in [0, 100]. -/
theorem score_formula_bounds (w n : Nat) :
    0 ≤ max 0 (100 - (w : Int) * (n : Int)) ∧ max 0 (100 - (w : Int) * (n : Int)) ≤ 100 := by
  constructor
  · exact le_max_left 0 _
  · have hmul : (0 : Int) ≤ (w : Int) * (n : Int) :=
      mul_nonneg (Int.ofNat_nonneg w) (Int.ofNat_nonneg n)
    have h1 : (100 : Int) - (w : Int) * (n : Int) ≤ 100 := by omega
    exact max_le (by norm_num) h1

/-- Helper: the foldl summation with a shifted accumulator. -/
theorem foldl_add_shift (f : BackendAnalysisResult → Nat) (a : Nat) (rs : List BackendAnalysisResult) :
    rs.foldl (fun s r => s + f r) a = a + rs.foldl (fun s r => s + f r) 0 := by
  induction rs generalizing a with
  | nil => simp
  | cons r rs ih =>
    simp only [List.foldl_cons]
    rw [ih (a + f r), ih (0 + f r)]
    omega

/-- Helper: `sumBy` on a cons cell. -/
theorem sumBy_cons (f : BackendAnalysisResult → Nat) (r : BackendAnalysisResult)
    (rs : List BackendAnalysisResult) : sumBy f (r :: rs) = f r + sumBy f rs := by
  show (r :: rs).foldl (fun s x => s + f x) 0 = f r + sumBy f rs
  simp only [List.foldl_cons]
  rw [foldl_add_shift]
  simp [sumBy]

/-- Helper: the per-file critical counts sum to the critical count of the
flattened detailed-issue list. -/
theorem sumBy_critical_flatten (rs : List BackendAnalysisResult) :
    sumBy criticalOfFile rs =
      (((rs.map (fun r => r.detailed_issues)).flatten).filter
        (fun i => jsToLower i.severity == "critical")).length := by
  induction rs with
  | nil => rfl
  | cons r rs ih =>
    rw [sumBy_cons]
    simp only [List.map_cons, List.flatten_cons, List.filter_append, List.length_append]
    rw [ih]
    rfl

/-- Claim C1: the transform computes the display scores by the fixed clamped
linear formulas — overall = max(0, 100 - 2 * totalIssues), security =
max(0, 100 - 5 * securityIssues), performance = max(0, 100 - 4 *
performanceIssues), code quality = max(0, 100 - 3 * complexityIssues),
documentation = max(0, 100 - 2 * documentationIssues); totalIssues = 10
gives overall 80, securityIssues = 25 gives security 0, and every score
lies in [0, 100]. -/
theorem transform_scores_spec (b : BackendResultsResponse) :
    ((transformBackendResults b).summary.overall_score
        = max 0 (100 - 2 * ((sumBy (fun r => r.total_issues) b.results : Nat) : Int))
    ∧ (transformBackendResults b).metrics.security_score
        = max 0 (100 - 5 * ((lookupCount (firstAgentBreakdown b.results) "security" : Nat) : Int))
    ∧ (transformBackendResults b).metrics.performance_score
        = max 0 (100 - 4 * ((lookupCount (firstAgentBreakdown b.results) "performance" : Nat) : Int))
    ∧ (transformBackendResults b).metrics.code_quality_score
        = max 0 (100 - 3 * ((lookupCount (firstAgentBreakdown b.results) "complexity" : Nat) : Int))
    ∧ (transformBackendResults b).metrics.documentation_score
        = max 0 (100 - 2 * ((lookupCount (firstAgentBreakdown b.results) "documentation" : Nat) : Int)))
    ∧ (0 ≤ (transformBackendResults b).summary.overall_score
        ∧ (transformBackendResults b).summary.overall_score ≤ 100)
    ∧ (0 ≤ (transformBackendResults b).metrics.security_score
        ∧ (transformBackendResults b).metrics.security_score ≤ 100)
    ∧ (0 ≤ (transformBackendResults b).metrics.performance_score
        ∧ (transformBackendResults b).metrics.performance_score ≤ 100)
    ∧ (0 ≤ (transformBackendResults b).metrics.code_quality_score
        ∧ (transformBackendResults b).metrics.code_quality_score ≤ 100)
    ∧ (0 ≤ (transformBackendResults b).metrics.documentation_score
        ∧ (transformBackendResults b).metrics.documentation_score ≤ 100)
    ∧ (sumBy (fun r => r.total_issues) b.results = 10 →
        (transformBackendResults b).summary.overall_score = 80)
    ∧ (lookupCount (firstAgentBreakdown b.results) "security" = 25 →
        (transformBackendResults b).metrics.security_score = 0) := by
  refine ⟨⟨rfl, rfl, rfl, rfl, rfl⟩, ?_, ?_, ?_, ?_, ?_, ?_, ?_⟩
  · exact score_formula_bounds 2 (sumBy (fun r => r.total_issues) b.results)
  · exact score_formula_bounds 5 (lookupCount (firstAgentBreakdown b.results) "security")
  · exact score_formula_bounds 4 (lookupCount (firstAgentBreakdown b.results) "performance")
  · exact score_formula_bounds 3 (lookupCount (firstAgentBreakdown b.results) "complexity")
  · exact score_formula_bounds 2 (lookupCount (firstAgentBreakdown b.results) "documentation")
  · intro h
    show max 0 (100 - 2 * ((sumBy (fun r => r.total_issues) b.results : Nat) : Int)) = 80
    rw [h]
    decide
  · intro h
    show max 0 (100 - 5 * ((lookupCount (firstAgentBreakdown b.results) "security" : Nat) : Int)) = 0
    rw [h]
    decide

/-- Concrete payload for the C1 witness: one file with 10 total issues and a
security agent count of 25. -/
def respC1 : BackendResultsResponse :=
  { success := true
    job_id := "job-1"
    results :=
      [{ file := "a.py", language := "python", lines := 100, total_issues := 10
         processing_time := 2, tokens_used := 0, api_calls := 0, completed_agents := []
         critical_issues := 0, high_issues := 4, medium_issues := 3, low_issues := 3
         agent_performance := [], agent_breakdown := [("security", 25)]
         detailed_issues := [], timestamp := "", job_id := "job-1" }]
    total_files := 1
    completion_time := "t" }

/-- Claim C1 witness: on a payload with totalIssues 10 and securityIssues 25
the transform yields overall score 80 and security score 0. -/
theorem transform_scores_spec_witness :
    (transformBackendResults respC1).summary.overall_score = 80
    ∧ (transformBackendResults respC1).metrics.security_score = 0 := by
  refine ⟨(transform_scores_spec respC1).2.2.2.2.2.2.1 (by decide),
          (transform_scores_spec respC1).2.2.2.2.2.2.2 (by decide)⟩

/-- Concrete payload for C2: the backend high subtotal is 7 while its detailed
issue list is empty, so the high count is taken as-is, not recomputed. -/
def respC2 : BackendResultsResponse :=
  { success := true
    job_id := "job-2"
    results :=
      [{ file := "b.py", language := "python", lines := 50, total_issues := 12
         processing_time := 1, tokens_used := 0, api_calls := 0, completed_agents := []
         critical_issues := 0, high_issues := 7, medium_issues := 3, low_issues := 2
         agent_performance := [], agent_breakdown := []
         detailed_issues := [], timestamp := "", job_id := "job-2" }]
    total_files := 1
    completion_time := "t" }

/-- Claim C2: the severity breakdown recomputes the critical count by scanning
all files detailed issue lists for case-insensitive "critical" entries, while
high, medium and low are the sums of the backend per-file subtotal fields taken
as-is; the final conjunct exhibits a payload where the as-is high count (7)
differs from what recomputing from the detailed lists would give (0). -/
theorem severity_breakdown_spec (b : BackendResultsResponse) :
    ((transformBackendResults b).summary.severity_breakdown.critical
        = sumBy criticalOfFile b.results
    ∧ (transformBackendResults b).summary.severity_breakdown.critical
        = (((b.results.map (fun r => r.detailed_issues)).flatten).filter
            (fun i => jsToLower i.severity == "critical")).length
    ∧ (transformBackendResults b).summary.severity_breakdown.high
        = sumBy (fun r => r.high_issues) b.results
    ∧ (transformBackendResults b).summary.severity_breakdown.medium
        = sumBy (fun r => r.medium_issues) b.results
    ∧ (transformBackendResults b).summary.severity_breakdown.low
        = sumBy (fun r => r.low_issues) b.results)
    ∧ ((transformBackendResults respC2).summary.severity_breakdown.high = 7
    ∧ sumBy (fun r =>
        (r.detailed_issues.filter (fun i => jsToLower i.severity == "high")).length)
        respC2.results = 0) := by
  refine ⟨⟨rfl, ?_, rfl, rfl, rfl⟩, by decide, by decide⟩
  exact sumBy_critical_flatten b.results

/-- Claim C6: the job-level agent breakdown of the transformed result is
exactly the first file record agent-breakdown map, and the empty map when the
results list is empty. -/
theorem agent_breakdown_first_file (b : BackendResultsResponse) :
    (transformBackendResults b).summary.agent_breakdown = firstAgentBreakdown b.results
    ∧ (b.results = [] → (transformBackendResults b).summary.agent_breakdown = [])
    ∧ (∀ f rest, b.results = f :: rest →
        (transformBackendResults b).summary.agent_breakdown = f.agent_breakdown) := by
  refine ⟨rfl, ?_, ?_⟩
  · intro h
    show firstAgentBreakdown b.results = []
    rw [h]
    rfl
  · intro f rest h
    show firstAgentBreakdown b.results = f.agent_breakdown
    rw [h]
    rfl

/-- Concrete payload for C6: a single file with a nonempty breakdown map. -/
def respC6 : BackendResultsResponse :=
  { success := true
    job_id := "job-6"
    results :=
      [{ file := "c.py", language := "python", lines := 5, total_issues := 1
         processing_time := 1, tokens_used := 0, api_calls := 0, completed_agents := []
         critical_issues := 0, high_issues := 1, medium_issues := 0, low_issues := 0
         agent_performance := [], agent_breakdown := [("security", 1), ("performance", 2)]
         detailed_issues := [], timestamp := "", job_id := "job-6" }]
    total_files := 1
    completion_time := "t" }

/-- Claim C6 witness: on a one-file payload the transformed breakdown equals
that file breakdown map. -/
theorem agent_breakdown_first_file_witness :
    (transformBackendResults respC6).summary.agent_breakdown
      = [("security", 1), ("performance", 2)] := by
  have h := (agent_breakdown_first_file respC6).2.2
    ((respC6.results.head?).getD
      { file := "", language := "", lines := 0, total_issues := 0
        processing_time := 0, tokens_used := 0, api_calls := 0, completed_agents := []
        critical_issues := 0, high_issues := 0, medium_issues := 0, low_issues := 0
        agent_performance := [], agent_breakdown := []
        detailed_issues := [], timestamp := "", job_id := "" }) [] rfl
  exact h

/-- Concrete payload for C10: total_issues is 25 but the detailed issue list
is empty, so the transformed issues_count strictly exceeds the issues length. -/
def respC10 : BackendResultsResponse :=
  { success := true
    job_id := "job-10"
    results :=
      [{ file := "d.py", language := "python", lines := 400, total_issues := 25
         processing_time := 3, tokens_used := 0, api_calls := 0, completed_agents := []
         critical_issues := 5, high_issues := 10, medium_issues := 5, low_issues := 5
         agent_performance := [], agent_breakdown := []
         detailed_issues := [], timestamp := "", job_id := "job-10" }]
    total_files := 1
    completion_time := "t" }

/-- Claim C10: the transform maps every file record to a FileResult whose
issues_count is the backend total_issues field and whose issues list is the
mapped detailed_issues array, preserving the order of file records and the
order and length of each detailed_issues array; the last conjunct exhibits a
payload where issues_count strictly exceeds the issues list length. -/
theorem file_results_projection (b : BackendResultsResponse) :
    ((transformBackendResults b).files = b.results.map toFileResult
    ∧ ((transformBackendResults b).files).length = b.results.length
    ∧ ((transformBackendResults b).files).map (fun f => f.issues_count)
        = b.results.map (fun r => r.total_issues)
    ∧ ((transformBackendResults b).files).map (fun f => f.issues)
        = b.results.map (fun r => r.detailed_issues.map toFrontIssue)
    ∧ ((transformBackendResults b).files).map (fun f => f.issues.length)
        = b.results.map (fun r => r.detailed_issues.length)
    ∧ ((transformBackendResults b).files).map (fun f => f.file)
        = b.results.map (fun r => r.file))
    ∧ (transformBackendResults respC10).files.map
        (fun f => decide (f.issues.length < f.issues_count)) = [true] := by
  refine ⟨⟨rfl, ?_, ?_, ?_, ?_, ?_⟩, by decide⟩
  · show (b.results.map toFileResult).length = b.results.length
    exact List.length_map b.results toFileResult
  · show (b.results.map toFileResult).map (fun f => f.issues_count)
        = b.results.map (fun r => r.total_issues)
    rw [List.map_map]
    rfl
  · show (b.results.map toFileResult).map (fun f => f.issues)
        = b.results.map (fun r => r.detailed_issues.map toFrontIssue)
    rw [List.map_map]
    rfl
  · show (b.results.map toFileResult).map (fun f => f.issues.length)
        = b.results.map (fun r => r.detailed_issues.length)
    rw [List.map_map]
    have hf : ((fun f : FileResult => f.issues.length) ∘ toFileResult)
        = (fun r : BackendAnalysisResult => r.detailed_issues.length) := by
      funext r
      show (r.detailed_issues.map toFrontIssue).length = r.detailed_issues.length
      exact List.length_map r.detailed_issues toFrontIssue
    rw [hf]
  · show (b.results.map toFileResult).map (fun f => f.file)
        = b.results.map (fun r => r.file)
    rw [List.map_map]
    rfl

/-! Top-issue ordering of `src/pages/Dashboard.tsx` (lines 204 to 216). The
comparator is the subtraction of `severityOrder[severity.toLowerCase()] || 0`
values over the object literal critical 4 / high 3 / medium 2 / low 1.
JavaScript property access walks the prototype chain: the lowercased keys
"constructor" and "__proto__" are the only all-lowercase property names of
Object.prototype, so those two severities yield a truthy non-number that
`|| 0` keeps; the subtraction is then NaN, and ES2019 SortCompare turns a NaN
comparator result into +0 — a tie with everything. Every other unrecognized
key misses the object and yields 0. `Array.prototype.sort` is stable since
ES2019 and is embedded as a stable insertion sort driven by the comparator.
For inputs free of the two prototype keys the comparator is consistent and
stability forces the unique result the insertion model computes; for inputs
holding a prototype key the ECMAScript sort order is implementation-defined,
and the only theorems about such inputs use two-element lists, where the
single tie comparison forces the result in every implementation. -/

/-- The value of `severityOrder[jsToLower s]` with the prototype chain:
an own numeric property, a truthy non-number inherited from
Object.prototype, or undefined. -/
inductive JsLookup where
  | num (n : Nat)
  | protoValue
  | undef
deriving Repr, DecidableEq

/-- The severityOrder lookup of Dashboard lines 211 to 215: the four own
properties; the two all-lowercase Object.prototype names a lowercased key
can reach; a miss for everything else. -/
def severityOrderLookup (s : String) : JsLookup :=
  if jsToLower s = "critical" then JsLookup.num 4
  else if jsToLower s = "high" then JsLookup.num 3
  else if jsToLower s = "medium" then JsLookup.num 2
  else if jsToLower s = "low" then JsLookup.num 1
  else if jsToLower s = "constructor" then JsLookup.protoValue
  else if jsToLower s = "__proto__" then JsLookup.protoValue
  else JsLookup.undef

/-- The `|| 0` on the lookup: undefined (falsy) becomes 0, a truthy inherited
value is kept. (A stored 0 would also become 0; no stored rank is 0.) -/
def keyAfterOrZero (s : String) : JsLookup :=
  match severityOrderLookup s with
  | JsLookup.undef => JsLookup.num 0
  | v => v

/-- The ES SortCompare value of the Dashboard comparator on issues a
(earlier) and b (later): the rank difference when both keys are numbers;
when a prototype value is involved, ToNumber of the inherited
function/object is NaN, the subtraction is NaN, and SortCompare maps a NaN
comparator result to +0, a tie. -/
def severityCompare (a b : Issue) : Int :=
  match keyAfterOrZero b.severity, keyAfterOrZero a.severity with
  | JsLookup.num nb, JsLookup.num na => (nb : Int) - (na : Int)
  | _, _ => 0

/-- Stable insertion by comparator: x goes before the first element y it
does not compare after (`c x y ≤ 0`; a tie keeps x, the earlier element,
first). -/
def insertByCmp (c : α → α → Int) (x : α) : List α → List α
  | [] => [x]
  | y :: ys => if c x y ≤ 0 then x :: y :: ys else y :: insertByCmp c x ys

/-- Stable sort by comparator, the model of the stable
`Array.prototype.sort`. -/
def sortByCmp (c : α → α → Int) : List α → List α
  | [] => []
  | x :: xs => insertByCmp c x (sortByCmp c xs)

/-- The severity rank table as the claims and the spec state it: critical 4,
high 3, medium 2, low 1, rank 0 for every unrecognized severity
(case-insensitive). The code realizes this rank through `keyAfterOrZero`
except at the two prototype keys, where the comparator ties instead; the
comparator definitions above are the code model, and this definition is the
claimed rank that the theorems compare it against. -/
def severityRank (s : String) : Nat :=
  if jsToLower s = "critical" then 4
  else if jsToLower s = "high" then 3
  else if jsToLower s = "medium" then 2
  else if jsToLower s = "low" then 1
  else 0

/-- Stable descending insertion by rank, the reference order of the claim. -/
def insertByKey (key : α → Nat) (x : α) : List α → List α
  | [] => [x]
  | y :: ys => if key y ≤ key x then x :: y :: ys else y :: insertByKey key x ys

/-- Stable descending sort by rank; the comparator sort is proved equal to it
on every input free of the two prototype keys. -/
def sortByKey (key : α → Nat) : List α → List α
  | [] => []
  | x :: xs => insertByKey key x (sortByKey key xs)

/-- The claimed rank of an issue. -/
def issueRank (i : Issue) : Nat := severityRank i.severity

/-- The flatMap of Dashboard lines 206 to 210: every issue of every file,
tagged with its owning file path. -/
def flattenIssues (ar : AnalysisResult) : List Issue :=
  ar.files.flatMap (fun f => f.issues.map (fun i => { i with file := some f.file }))

/-- `topIssues` of Dashboard lines 205 to 216: flatten, sort with the
comparator, keep the first 10. -/
def topIssues (ar : AnalysisResult) : List Issue :=
  (sortByCmp severityCompare (flattenIssues ar)).take 10

/-- Helper: membership in an insertion. -/
theorem mem_insertByKey (key : α → Nat) (x z : α) (l : List α)
    (h : z ∈ insertByKey key x l) : z = x ∨ z ∈ l := by
  induction l with
  | nil => simpa [insertByKey] using h
  | cons y ys ih =>
    by_cases hc : key y ≤ key x
    · simpa [insertByKey, hc, or_assoc] using h
    · simp only [insertByKey, if_neg hc, List.mem_cons] at h
      rcases h with h | h
      · exact Or.inr (List.mem_cons_self y ys |> fun _ => by simp [h])
      · rcases ih h with h1 | h1
        · exact Or.inl h1
        · exact Or.inr (by simp [h1])

/-- Helper: inserting preserves descending pairwise order. -/
theorem pairwise_insertByKey (key : α → Nat) (x : α) (l : List α)
    (h : l.Pairwise (fun a b => key b ≤ key a)) :
    (insertByKey key x l).Pairwise (fun a b => key b ≤ key a) := by
  induction l with
  | nil => simp [insertByKey]
  | cons y ys ih =>
    rcases List.pairwise_cons.mp h with ⟨hy, hys⟩
    by_cases hc : key y ≤ key x
    · simp only [insertByKey, if_pos hc]
      refine List.pairwise_cons.mpr ⟨?_, h⟩
      intro z hz
      rcases List.mem_cons.mp hz with h1 | h1
      · rw [h1]
        exact hc
      · exact le_trans (hy z h1) hc
    · simp only [insertByKey, if_neg hc]
      refine List.pairwise_cons.mpr ⟨?_, ih hys⟩
      intro z hz
      rcases mem_insertByKey key x z ys hz with h1 | h1
      · subst h1
        omega
      · exact hy z h1

/-- Helper: the sorted list is in descending key order. -/
theorem pairwise_sortByKey (key : α → Nat) (l : List α) :
    (sortByKey key l).Pairwise (fun a b => key b ≤ key a) := by
  induction l with
  | nil => simp [sortByKey]
  | cons x xs ih => exact pairwise_insertByKey key x (sortByKey key xs) ih

/-- Helper: inserting an element of key k prepends it to the key-k filter. -/
theorem filter_insertByKey_eq (key : α → Nat) (x : α) (l : List α) (k : Nat)
    (hx : key x = k) :
    (insertByKey key x l).filter (fun z => key z == k)
      = x :: l.filter (fun z => key z == k) := by
  subst hx
  induction l with
  | nil => simp [insertByKey, List.filter_cons]
  | cons y ys ih =>
    by_cases hc : key y ≤ key x
    · simp [insertByKey, if_pos hc, List.filter_cons]
    · have hy : (key y == key x) = false := by
        simp only [beq_eq_false_iff_ne, ne_eq]
        omega
      simp only [insertByKey, if_neg hc, List.filter_cons, hy]
      simpa [hy] using ih

/-- Helper: inserting an element of a different key leaves the key-k filter
unchanged. -/
theorem filter_insertByKey_ne (key : α → Nat) (x : α) (l : List α) (k : Nat)
    (hx : key x ≠ k) :
    (insertByKey key x l).filter (fun z => key z == k)
      = l.filter (fun z => key z == k) := by
  have hx2 : (key x == k) = false := by
    simp only [beq_eq_false_iff_ne, ne_eq]
    exact hx
  induction l with
  | nil => simp [insertByKey, List.filter_cons, hx2]
  | cons y ys ih =>
    by_cases hc : key y ≤ key x
    · simp [insertByKey, if_pos hc, List.filter_cons, hx2]
    · simp only [insertByKey, if_neg hc, List.filter_cons]
      rw [ih]

/-- Helper: stability as filter preservation — the sort keeps every
equal-key class in input order. -/
theorem filter_sortByKey (key : α → Nat) (l : List α) (k : Nat) :
    (sortByKey key l).filter (fun z => key z == k)
      = l.filter (fun z => key z == k) := by
  induction l with
  | nil => rfl
  | cons x xs ih =>
    by_cases hx : key x = k
    · rw [show sortByKey key (x :: xs) = insertByKey key x (sortByKey key xs) from rfl,
        filter_insertByKey_eq key x (sortByKey key xs) k hx, ih]
      simp [List.filter_cons, hx]
    · rw [show sortByKey key (x :: xs) = insertByKey key x (sortByKey key xs) from rfl,
        filter_insertByKey_ne key x (sortByKey key xs) k hx, ih]
      simp [List.filter_cons, hx]

/-- Helper: the sorted-by-rank list holds only input elements. -/
theorem mem_sortByKey (key : α → Nat) (l : List α) (z : α)
    (h : z ∈ sortByKey key l) : z ∈ l := by
  induction l with
  | nil => simp [sortByKey] at h
  | cons x xs ih =>
    rcases mem_insertByKey key x z (sortByKey key xs) h with h1 | h1
    · simp [h1]
    · simp [ih h1]

/-- Helper: away from the two prototype keys, the looked-up key after
`|| 0` is the claimed rank. -/
theorem keyAfterOrZero_eq_rank (s : String)
    (h1 : jsToLower s ≠ "constructor") (h2 : jsToLower s ≠ "__proto__") :
    keyAfterOrZero s = JsLookup.num (severityRank s) := by
  unfold keyAfterOrZero severityOrderLookup severityRank
  split_ifs <;> simp_all

/-- Helper: away from the two prototype keys, the comparator is the rank
difference. -/
theorem severityCompare_eq_rank (a b : Issue)
    (ha1 : jsToLower a.severity ≠ "constructor") (ha2 : jsToLower a.severity ≠ "__proto__")
    (hb1 : jsToLower b.severity ≠ "constructor") (hb2 : jsToLower b.severity ≠ "__proto__") :
    severityCompare a b = (issueRank b : Int) - (issueRank a : Int) := by
  unfold severityCompare issueRank
  rw [keyAfterOrZero_eq_rank a.severity ha1 ha2, keyAfterOrZero_eq_rank b.severity hb1 hb2]

/-- Helper: when the comparator is the rank difference on the inserted
element against every list element, comparator insertion is rank
insertion. -/
theorem insertByCmp_eq_insertByKey (c : α → α → Int) (key : α → Nat) (x : α)
    (m : List α) (h : ∀ y ∈ m, c x y = (key y : Int) - (key x : Int)) :
    insertByCmp c x m = insertByKey key x m := by
  induction m with
  | nil => rfl
  | cons y ys ih =>
    have hy := h y (List.mem_cons_self y ys)
    by_cases hc : key y ≤ key x
    · have hle : c x y ≤ 0 := by
        rw [hy]
        omega
      simp only [insertByCmp, insertByKey, if_pos hle, if_pos hc]
    · have hgt : ¬ c x y ≤ 0 := by
        rw [hy]
        omega
      simp only [insertByCmp, insertByKey, if_neg hgt, if_neg hc]
      exact congrArg (fun t => y :: t) (ih (fun z hz => h z (List.mem_cons_of_mem y hz)))

/-- Helper: when the comparator is the rank difference on all input
elements, the comparator sort is the rank sort. -/
theorem sortByCmp_eq_sortByKey (c : α → α → Int) (key : α → Nat) (l : List α)
    (h : ∀ x ∈ l, ∀ y ∈ l, c x y = (key y : Int) - (key x : Int)) :
    sortByCmp c l = sortByKey key l := by
  induction l with
  | nil => rfl
  | cons x xs ih =>
    have hxs : ∀ p ∈ xs, ∀ q ∈ xs, c p q = (key q : Int) - (key p : Int) :=
      fun p hp q hq => h p (List.mem_cons_of_mem x hp) q (List.mem_cons_of_mem x hq)
    show insertByCmp c x (sortByCmp c xs) = insertByKey key x (sortByKey key xs)
    rw [ih hxs]
    apply insertByCmp_eq_insertByKey
    intro y hy
    exact h x (List.mem_cons_self x xs) y
      (List.mem_cons_of_mem x (mem_sortByKey key xs y hy))

/-- Payload for the C3 counterexample: one file whose detailed issues carry
severities "constructor" and then "critical". -/
def respC3bad : BackendResultsResponse :=
  { success := true
    job_id := "job-3"
    results :=
      [{ file := "f.py", language := "python", lines := 9, total_issues := 2
         processing_time := 1, tokens_used := 0, api_calls := 0, completed_agents := []
         critical_issues := 1, high_issues := 0, medium_issues := 0, low_issues := 0
         agent_performance := [], agent_breakdown := []
         detailed_issues :=
           [{ severity := "constructor", title := "con", agent := "security"
              file := "f.py", line := 1, description := "d", fix := "s" },
            { severity := "critical", title := "crit", agent := "security"
              file := "f.py", line := 2, description := "d", fix := "s" }]
         timestamp := "", job_id := "job-3" }]
    total_files := 1
    completion_time := "t" }

def arC3bad : AnalysisResult := transformBackendResults respC3bad

/-- The two issues of respC3bad as flattened and tagged by the Dashboard. -/
def issueConTagged : Issue :=
  { title := "con", description := "d", severity := "constructor"
    agent := "security", line := 1, suggestion := "s", file := some "f.py" }

def issueCritTagged : Issue :=
  { title := "crit", description := "d", severity := "critical"
    agent := "security", line := 2, suggestion := "s", file := some "f.py" }

/-- Claim C3 counterexample: on a two-element flattened list whose first
issue has severity "constructor" and whose second has severity "critical",
the displayed order keeps the rank-0 issue FIRST: the prototype-chain lookup
makes the comparator NaN (a SortCompare tie), and the single stable tie
comparison — forced by ES2019 on a two-element array — leaves the input
order, so the strictly-higher-rank critical issue does not precede the
lower-rank one, refuting the claimed order at this input. -/
theorem topIssues_proto_key_cex :
    topIssues arC3bad = [issueConTagged, issueCritTagged]
    ∧ severityRank issueConTagged.severity = 0
    ∧ severityRank issueCritTagged.severity = 4 := by
  refine ⟨?_, ?_, ?_⟩ <;> decide

/-- Claim C3 as amended: for every flattened issue list in which no issue
has lowercased severity "constructor" or "__proto__" (the two
Object-prototype keys, where the comparator ties instead of ranking), the
top-issues ordering is the stable sort by descending severity rank
(critical 4, high 3, medium 2, low 1, case-insensitive): the sorted list is
pairwise descending in rank, every equal-rank class keeps its relative
encounter order from the flattened input, and the displayed list is the
first 10 elements of that order. -/
theorem topIssues_stable_sort_amended (ar : AnalysisResult)
    (hp : ∀ i ∈ flattenIssues ar,
        jsToLower i.severity ≠ "constructor" ∧ jsToLower i.severity ≠ "__proto__") :
    (sortByCmp severityCompare (flattenIssues ar)).Pairwise
        (fun a b => issueRank b ≤ issueRank a)
    ∧ (∀ k : Nat,
        (sortByCmp severityCompare (flattenIssues ar)).filter (fun i => issueRank i == k)
          = (flattenIssues ar).filter (fun i => issueRank i == k))
    ∧ topIssues ar = (sortByCmp severityCompare (flattenIssues ar)).take 10
    ∧ severityRank "critical" = 4 ∧ severityRank "CRITICAL" = 4
    ∧ severityRank "high" = 3 ∧ severityRank "High" = 3
    ∧ severityRank "medium" = 2 ∧ severityRank "MEDIUM" = 2
    ∧ severityRank "low" = 1 ∧ severityRank "Low" = 1 := by
  have hsort : sortByCmp severityCompare (flattenIssues ar)
      = sortByKey issueRank (flattenIssues ar) := by
    apply sortByCmp_eq_sortByKey
    intro x hx y hy
    exact severityCompare_eq_rank x y (hp x hx).1 (hp x hx).2 (hp y hy).1 (hp y hy).2
  refine ⟨?_, ?_, rfl, ?_, ?_, ?_, ?_, ?_, ?_, ?_, ?_⟩
  · rw [hsort]
    exact pairwise_sortByKey issueRank (flattenIssues ar)
  · intro k
    rw [hsort]
    exact filter_sortByKey issueRank (flattenIssues ar) k
  all_goals decide

/-- Payload for the C3 witness: three ordinary severities. -/
def respC3w : BackendResultsResponse :=
  { success := true
    job_id := "job-3w"
    results :=
      [{ file := "g.py", language := "python", lines := 30, total_issues := 3
         processing_time := 1, tokens_used := 0, api_calls := 0, completed_agents := []
         critical_issues := 1, high_issues := 1, medium_issues := 0, low_issues := 1
         agent_performance := [], agent_breakdown := []
         detailed_issues :=
           [{ severity := "low", title := "a", agent := "security"
              file := "g.py", line := 1, description := "d", fix := "s" },
            { severity := "Critical", title := "b", agent := "security"
              file := "g.py", line := 2, description := "d", fix := "s" },
            { severity := "HIGH", title := "c", agent := "performance"
              file := "g.py", line := 3, description := "d", fix := "s" }]
         timestamp := "", job_id := "job-3w" }]
    total_files := 1
    completion_time := "t" }

def arC3w : AnalysisResult := transformBackendResults respC3w

/-- Claim C3 witness: a concrete prototype-key-free payload satisfies the
hypothesis, and the amended theorem applies to it. -/
theorem topIssues_stable_sort_amended_witness :
    (∀ i ∈ flattenIssues arC3w,
        jsToLower i.severity ≠ "constructor" ∧ jsToLower i.severity ≠ "__proto__")
    ∧ (sortByCmp severityCompare (flattenIssues arC3w)).Pairwise
        (fun a b => issueRank b ≤ issueRank a)
    ∧ topIssues arC3w = (sortByCmp severityCompare (flattenIssues arC3w)).take 10 :=
  ⟨by decide, (topIssues_stable_sort_amended arC3w (by decide)).1,
    (topIssues_stable_sort_amended arC3w (by decide)).2.2.1⟩

/-- Payload for the C7 bug evaluation: severity "constructor" flattened just
ahead of severity "low". -/
def respC7bad : BackendResultsResponse :=
  { success := true
    job_id := "job-7"
    results :=
      [{ file := "h.py", language := "python", lines := 9, total_issues := 2
         processing_time := 1, tokens_used := 0, api_calls := 0, completed_agents := []
         critical_issues := 0, high_issues := 0, medium_issues := 0, low_issues := 1
         agent_performance := [], agent_breakdown := []
         detailed_issues :=
           [{ severity := "constructor", title := "p", agent := "security"
              file := "h.py", line := 1, description := "d", fix := "s" },
            { severity := "low", title := "q", agent := "security"
              file := "h.py", line := 2, description := "d", fix := "s" }]
         timestamp := "", job_id := "job-7" }]
    total_files := 1
    completion_time := "t" }

def arC7bad : AnalysisResult := transformBackendResults respC7bad

/-- The two issues of respC7bad as flattened and tagged by the Dashboard. -/
def protoIssueTagged : Issue :=
  { title := "p", description := "d", severity := "constructor"
    agent := "security", line := 1, suggestion := "s", file := some "h.py" }

def lowIssueTagged : Issue :=
  { title := "q", description := "d", severity := "low"
    agent := "security", line := 2, suggestion := "s", file := some "h.py" }

/-- Claim C7 (code bug evaluation): the lowercased severities "constructor"
and "__proto__" reach the Object prototype, so the lookup is a truthy
non-number, `|| 0` keeps it, and the comparator returns a NaN that
SortCompare treats as a tie in both directions; on a two-element payload the
stable sort (forced by ES2019: one tie comparison) therefore leaves the
unrecognized-severity issue AHEAD of the rank-1 low issue instead of ranking
it in the lowest bucket — the claim that such an issue is ranked no higher
than issues of severity low fails on the code, while the claimed rank table
gives it rank 0 below rank 1. -/
theorem proto_severity_tie_bug :
    severityOrderLookup "constructor" = JsLookup.protoValue
    ∧ severityOrderLookup "__proto__" = JsLookup.protoValue
    ∧ severityCompare protoIssueTagged lowIssueTagged = 0
    ∧ severityCompare lowIssueTagged protoIssueTagged = 0
    ∧ topIssues arC7bad = [protoIssueTagged, lowIssueTagged]
    ∧ severityRank protoIssueTagged.severity = 0
    ∧ severityRank lowIssueTagged.severity = 1 := by
  refine ⟨?_, ?_, ?_, ?_, ?_, ?_, ?_⟩ <;> decide

/-! Job monitoring effect of `src/pages/Dashboard.tsx` (lines 53 to 172),
embedded as an event-driven state machine. The effect closure owns two
mutable variables, `ws` and `statusCheckInterval`; `startStatusPolling`
allocates a fresh interval and OVERWRITES the variable, so an interval whose
id was overwritten stays scheduled (member of `liveTimers`) but can no longer
be cleared through the variable. Each state-setter invocation
(setAnalysisProgress, setAnalysisMessage, setIsAnalyzing, setAnalysisResults)
increments `setterCalls`; toasts and results fetches are counted
separately. -/

inductive JobStatus where
  | pending
  | processing
  | completed
  | failed
deriving Repr, DecidableEq

structure MonState where
  nextTimer : Nat
  liveTimers : List Nat
  intervalVar : Option Nat
  wsCreated : Bool
  wsOpen : Bool
  started : Bool
  unmounted : Bool
  setterCalls : Nat
  resultsFetches : Nat
  resultsErrors : Nat
  failToasts : Nat
  isAnalyzing : Bool
  hasResults : Bool
deriving Repr, DecidableEq

/-- The initial state of the effect for a fresh dashboard mount. -/
def monInit : MonState :=
  { nextTimer := 0, liveTimers := [], intervalVar := none
    wsCreated := false, wsOpen := false, started := false, unmounted := false
    setterCalls := 0, resultsFetches := 0, resultsErrors := 0, failToasts := 0
    isAnalyzing := false, hasResults := false }

/-- Events delivered to the effect: the initial status fetch, a WebSocket
progress frame, a WebSocket transport error, a tick of interval `t` whose
status fetch returns `st` (the nested results fetch succeeds when `ok`),
a tick whose status fetch throws, and the React cleanup. -/
inductive MonEvent where
  | init (st : JobStatus) (ok : Bool)
  | wsMsg (progress : Nat)
  | wsFail
  | tick (t : Nat) (st : JobStatus) (ok : Bool)
  | tickErr (t : Nat)
  | unmount
deriving Repr, DecidableEq

/-- `updateAnalysisState` (Dashboard lines 129 to 141): three setter calls,
and the failure toast on a failed status. -/
def updateAnalysisState (st : JobStatus) (s : MonState) : MonState :=
  { s with setterCalls := s.setterCalls + 3
           isAnalyzing := st = JobStatus.processing
           failToasts := if st = JobStatus.failed then s.failToasts + 1 else s.failToasts }

/-- `loadAnalysisResults` (Dashboard lines 143 to 163): one fetch; on success
two setter calls (results, isAnalyzing), on failure the non-fatal
"Results Error" toast and no setter call. -/
def loadAnalysisResults (ok : Bool) (s : MonState) : MonState :=
  if ok then
    { s with resultsFetches := s.resultsFetches + 1
             setterCalls := s.setterCalls + 2
             hasResults := true
             isAnalyzing := false }
  else
    { s with resultsFetches := s.resultsFetches + 1
             resultsErrors := s.resultsErrors + 1 }

/-- `startStatusPolling` (Dashboard lines 106 to 127): schedule a fresh
interval and overwrite the `statusCheckInterval` variable with its id. -/
def startStatusPolling (s : MonState) : MonState :=
  { s with liveTimers := s.liveTimers ++ [s.nextTimer]
           intervalVar := some s.nextTimer
           nextTimer := s.nextTimer + 1 }

/-- `if (statusCheckInterval) clearInterval(statusCheckInterval)`: unschedule
the interval the variable currently holds (the variable is not nulled). -/
def clearIntervalVar (s : MonState) : MonState :=
  match s.intervalVar with
  | some t => { s with liveTimers := s.liveTimers.filter (fun u => u ≠ t) }
  | none => s

/-- `if (ws) ws.close()`. -/
def closeWs (s : MonState) : MonState :=
  if s.wsCreated then { s with wsOpen := false } else s

/-- The body of one interval callback (Dashboard lines 108 to 125), run only
while its interval is still scheduled. -/
def tickBody (st : JobStatus) (ok : Bool) (s : MonState) : MonState :=
  let s1 := updateAnalysisState st s
  match st with
  | JobStatus.completed => loadAnalysisResults ok (closeWs (clearIntervalVar s1))
  | JobStatus.failed => closeWs (clearIntervalVar s1)
  | _ => s1

/-- One step of the monitoring effect. -/
def monStep (s : MonState) (e : MonEvent) : MonState :=
  match e with
  | MonEvent.init st ok =>
    if s.started || s.unmounted then s
    else
      let s1 := updateAnalysisState st { s with started := true }
      match st with
      | JobStatus.completed => loadAnalysisResults ok s1
      | JobStatus.processing =>
        startStatusPolling { s1 with wsCreated := true, wsOpen := true }
      | _ => s1
  | MonEvent.wsMsg progress =>
    if s.wsOpen then
      { s with setterCalls := s.setterCalls + 3
               isAnalyzing := progress < 100 }
    else s
  | MonEvent.wsFail =>
    if s.wsOpen then startStatusPolling { s with wsOpen := false } else s
  | MonEvent.tick t st ok =>
    if s.liveTimers.contains t then tickBody st ok s else s
  | MonEvent.tickErr _ => s
  | MonEvent.unmount =>
    if s.unmounted then s
    else closeWs (clearIntervalVar { s with unmounted := true })

/-- Run a list of events from a state. -/
def monRun (s : MonState) (es : List MonEvent) : MonState :=
  es.foldl monStep s

/-- Claim C4 (code bug evaluation): monitoring a processing job, a WebSocket
failure restarts polling and overwrites the interval variable; after the
cleanup runs on unmount, the first interval is still scheduled and its next
tick still invokes the state setters — the claim that zero additional setter
invocations occur after teardown fails on this trace. -/
theorem monitor_teardown_bug :
    (monRun monInit
      [MonEvent.init JobStatus.processing true, MonEvent.wsFail,
       MonEvent.unmount]).unmounted = true
    ∧ (monRun monInit
      [MonEvent.init JobStatus.processing true, MonEvent.wsFail,
       MonEvent.unmount]).wsOpen = false
    ∧ (monRun monInit
      [MonEvent.init JobStatus.processing true, MonEvent.wsFail,
       MonEvent.unmount]).liveTimers = [0]
    ∧ (monRun monInit
      [MonEvent.init JobStatus.processing true, MonEvent.wsFail,
       MonEvent.unmount]).setterCalls = 3
    ∧ (monRun monInit
      [MonEvent.init JobStatus.processing true, MonEvent.wsFail,
       MonEvent.unmount, MonEvent.tick 0 JobStatus.processing true]).setterCalls = 6 := by
  refine ⟨?_, ?_, ?_, ?_, ?_⟩ <;> decide

/-- Claim C5 (code bug evaluation): on the same WebSocket-failure trace, a
completed status clears only the interval the variable holds, so the orphaned
interval keeps polling: two completed ticks yield two results fetches and
polling is still live afterwards — the claim of exactly one results fetch and
a full stop fails. The last two conjuncts check the intact half of the claim:
a failing results fetch on a clean trace is surfaced as a non-fatal results
error (no failure toast, analysis no longer running). -/
theorem monitor_completed_bug :
    (monRun monInit
      [MonEvent.init JobStatus.processing true, MonEvent.wsFail,
       MonEvent.tick 0 JobStatus.completed true,
       MonEvent.tick 0 JobStatus.completed true]).resultsFetches = 2
    ∧ (monRun monInit
      [MonEvent.init JobStatus.processing true, MonEvent.wsFail,
       MonEvent.tick 0 JobStatus.completed true,
       MonEvent.tick 0 JobStatus.completed true]).liveTimers = [0]
    ∧ (monRun monInit
      [MonEvent.init JobStatus.processing true,
       MonEvent.tick 0 JobStatus.completed false]).resultsErrors = 1
    ∧ (monRun monInit
      [MonEvent.init JobStatus.processing true,
       MonEvent.tick 0 JobStatus.completed false]).failToasts = 0
    ∧ (monRun monInit
      [MonEvent.init JobStatus.processing true,
       MonEvent.tick 0 JobStatus.completed false]).isAnalyzing = false
    ∧ (monRun monInit
      [MonEvent.init JobStatus.processing true,
       MonEvent.tick 0 JobStatus.completed true,
       MonEvent.tick 0 JobStatus.completed true]).resultsFetches = 1 := by
  refine ⟨?_, ?_, ?_, ?_, ?_, ?_⟩ <;> decide

/-! Error propagation of the six ApiClient operations (api.ts lines 164 to
367). Each operation awaits a fetch and throws
`new Error(error.detail || FIXED_MESSAGE)` when `response.ok` is false,
else returns the parsed body (for getAnalysisResults, the transformed body).
An HTTP response is embedded as its ok flag, the optional `detail` string of
the error body, and the parsed success body. -/

structure HttpResp (α : Type) where
  ok : Bool
  detail : Option String
  body : α
deriving Repr

structure StartAnalysisBody where
  success : Bool
  job_id : String
  results_count : Nat
deriving Repr, DecidableEq

structure AnalysisStatus where
  job_id : String
  status : JobStatus
  progress : Nat
  message : String
  start_time : String
  completion_time : Option String
deriving Repr, DecidableEq

structure ChatSessionBody where
  success : Bool
  session_id : String
  message : String
  codebase_path : String
  codebase_status : String
deriving Repr, DecidableEq

structure ChatResponseBody where
  success : Bool
  content : String
  confidence : Nat
  source : String
  processing_time : Nat
  follow_up_suggestions : List String
  related_files : List String
  timestamp : String
deriving Repr, DecidableEq

structure UploadResponse where
  success : Bool
  files : List (String × String × Nat × String)
  upload_dir : String
  total_files : Nat
deriving Repr, DecidableEq

/-- JavaScript `detail || fallback` on the error body: the fallback is used
when detail is absent, and also when it is the empty string (falsy). -/
def jsOrDefault (d : Option String) (fb : String) : String :=
  match d with
  | some s => if s = "" then fb else s
  | none => fb

/-- `uploadFiles` (api.ts lines 164 to 182). -/
def uploadFilesResult (r : HttpResp UploadResponse) : Except String UploadResponse :=
  if r.ok then Except.ok r.body
  else Except.error (jsOrDefault r.detail "Upload failed")

/-- `startAnalysis` (api.ts lines 187 to 206). -/
def startAnalysisResult (r : HttpResp StartAnalysisBody) : Except String StartAnalysisBody :=
  if r.ok then Except.ok r.body
  else Except.error (jsOrDefault r.detail "Analysis failed to start")

/-- `getAnalysisStatus` (api.ts lines 211 to 220). -/
def getAnalysisStatusResult (r : HttpResp AnalysisStatus) : Except String AnalysisStatus :=
  if r.ok then Except.ok r.body
  else Except.error (jsOrDefault r.detail "Failed to get status")

/-- `getAnalysisResults` (api.ts lines 225 to 237): the one operation whose
success body is transformed before being returned. -/
def getAnalysisResultsResult (r : HttpResp BackendResultsResponse) :
    Except String AnalysisResult :=
  if r.ok then Except.ok (transformBackendResults r.body)
  else Except.error (jsOrDefault r.detail "Failed to get results")

/-- `startChatSession` (api.ts lines 327 to 344). -/
def startChatSessionResult (r : HttpResp ChatSessionBody) : Except String ChatSessionBody :=
  if r.ok then Except.ok r.body
  else Except.error (jsOrDefault r.detail "Failed to start chat session")

/-- `sendChatMessage` (api.ts lines 349 to 367). -/
def sendChatMessageResult (r : HttpResp ChatResponseBody) : Except String ChatResponseBody :=
  if r.ok then Except.ok r.body
  else Except.error (jsOrDefault r.detail "Failed to send message")

/-- An arbitrary concrete upload body for closed statements. -/
def uploadBody0 : UploadResponse :=
  { success := true, files := [], upload_dir := "", total_files := 0 }

/-- Claim C8 counterexample: with a non-success response whose error body
carries the backend-supplied detail string "" (present, a string), the raised
error carries the fixed fallback message, not the supplied detail — the
claim that the raised error carries the backend-supplied detail string
whenever one is present is false at this input. -/
theorem api_error_empty_detail_cex :
    uploadFilesResult { ok := false, detail := some "", body := uploadBody0 }
      = Except.error "Upload failed"
    ∧ "Upload failed" ≠ "" := by
  refine ⟨rfl, by decide⟩

/-- Claim C8 as amended: every operation fails exactly when the response is
non-success; the raised error carries the backend detail string when it is
present and nonempty, and the fixed operation-specific message when the
detail is absent or empty (JavaScript falsy fallback); on success the body is
returned unaltered, except getAnalysisResults which returns the documented
transform of the body. -/
theorem api_error_propagation_amended :
    (∀ r : HttpResp UploadResponse,
      (uploadFilesResult r).isOk = r.ok
      ∧ (r.ok = true → uploadFilesResult r = Except.ok r.body)
      ∧ (r.ok = false →
          uploadFilesResult r = Except.error (jsOrDefault r.detail "Upload failed")))
    ∧ (∀ r : HttpResp StartAnalysisBody,
      (startAnalysisResult r).isOk = r.ok
      ∧ (r.ok = true → startAnalysisResult r = Except.ok r.body)
      ∧ (r.ok = false →
          startAnalysisResult r = Except.error (jsOrDefault r.detail "Analysis failed to start")))
    ∧ (∀ r : HttpResp AnalysisStatus,
      (getAnalysisStatusResult r).isOk = r.ok
      ∧ (r.ok = true → getAnalysisStatusResult r = Except.ok r.body)
      ∧ (r.ok = false →
          getAnalysisStatusResult r = Except.error (jsOrDefault r.detail "Failed to get status")))
    ∧ (∀ r : HttpResp BackendResultsResponse,
      (getAnalysisResultsResult r).isOk = r.ok
      ∧ (r.ok = true →
          getAnalysisResultsResult r = Except.ok (transformBackendResults r.body))
      ∧ (r.ok = false →
          getAnalysisResultsResult r = Except.error (jsOrDefault r.detail "Failed to get results")))
    ∧ (∀ r : HttpResp ChatSessionBody,
      (startChatSessionResult r).isOk = r.ok
      ∧ (r.ok = true → startChatSessionResult r = Except.ok r.body)
      ∧ (r.ok = false →
          startChatSessionResult r = Except.error (jsOrDefault r.detail "Failed to start chat session")))
    ∧ (∀ r : HttpResp ChatResponseBody,
      (sendChatMessageResult r).isOk = r.ok
      ∧ (r.ok = true → sendChatMessageResult r = Except.ok r.body)
      ∧ (r.ok = false →
          sendChatMessageResult r = Except.error (jsOrDefault r.detail "Failed to send message"))) := by
  refine ⟨?_, ?_, ?_, ?_, ?_, ?_⟩ <;>
    exact fun r => by
      rcases r with ⟨ok, detail, body⟩
      cases ok <;>
        simp [uploadFilesResult, startAnalysisResult, getAnalysisStatusResult,
          getAnalysisResultsResult, startChatSessionResult, sendChatMessageResult,
          Except.isOk, Except.toBool]

/-- Claim C8 witness: a non-success upload response with nonempty detail
"disk full" raises that detail, and a success response returns its body. -/
theorem api_error_propagation_amended_witness :
    uploadFilesResult { ok := false, detail := some "disk full", body := uploadBody0 }
      = Except.error "disk full"
    ∧ uploadFilesResult { ok := true, detail := none, body := uploadBody0 }
      = Except.ok uploadBody0 := by
  refine ⟨?_, ?_⟩
  · exact (api_error_propagation_amended.1
      { ok := false, detail := some "disk full", body := uploadBody0 }).2.2 rfl
  · exact (api_error_propagation_amended.1
      { ok := true, detail := none, body := uploadBody0 }).2.1 rfl

/-! Chat markdown inline pass, `processInlineFormatting` of the chat view.
Four global regex replaces run in order on the whole string: bold
`\*\*(.*?)\*\*`, italic `\*(.*?)\*`, inline code over backtick pairs, then
filename tokens `\b([a-zA-Z_][a-zA-Z0-9_]*\.[a-zA-Z]\x7b1,4\x7d)\b(?![^<]*>)`.
Each pass is embedded as a left-to-right scanner over the character list:
a lazy `(.*?)` up to the next delimiter is the earliest closing delimiter,
a failed match advances one character, and replacements are not rescanned by
the pass that produced them (later passes scan the full output, as the
JavaScript code does). The scanners take a fuel argument so they are
structurally recursive; fuel is the list length, which every recursive call
strictly decreases, so it never runs out. -/

/-- Earliest occurrence of a single-character delimiter: the content before
it and the remainder after it. -/
def breakAt1 (d : Char) : List Char → Option (List Char × List Char)
  | [] => none
  | c :: cs =>
    if c == d then some ([], cs)
    else
      match breakAt1 d cs with
      | some (a, b) => some (c :: a, b)
      | none => none

/-- Earliest occurrence of a doubled delimiter. -/
def breakAt2 (d : Char) : List Char → Option (List Char × List Char)
  | [] => none
  | [_] => none
  | c1 :: c2 :: cs =>
    if c1 == d && c2 == d then some ([], cs)
    else
      match breakAt2 d (c2 :: cs) with
      | some (a, b) => some (c1 :: a, b)
      | none => none

/-- Global replace of lazily matched single-delimiter spans. -/
def rp1Go (d : Char) (pre post : List Char) : Nat → List Char → List Char
  | 0, l => l
  | _ + 1, [] => []
  | fuel + 1, c :: cs =>
    if c == d then
      match breakAt1 d cs with
      | some (content, rest) => pre ++ content ++ post ++ rp1Go d pre post fuel rest
      | none => c :: rp1Go d pre post fuel cs
    else c :: rp1Go d pre post fuel cs

/-- Single-delimiter replace pass (the italic and inline-code regexes). -/
def replacePair1 (d : Char) (pre post : List Char) (l : List Char) : List Char :=
  rp1Go d pre post l.length l

/-- Global replace of lazily matched doubled-delimiter spans. -/
def rp2Go (d : Char) (pre post : List Char) : Nat → List Char → List Char
  | 0, l => l
  | _ + 1, [] => []
  | _ + 1, [c] => [c]
  | fuel + 1, c1 :: c2 :: cs =>
    if c1 == d && c2 == d then
      match breakAt2 d cs with
      | some (content, rest) => pre ++ content ++ post ++ rp2Go d pre post fuel rest
      | none => c1 :: rp2Go d pre post fuel (c2 :: cs)
    else c1 :: rp2Go d pre post fuel (c2 :: cs)

/-- Doubled-delimiter replace pass (the bold regex). -/
def replacePair2 (d : Char) (pre post : List Char) (l : List Char) : List Char :=
  rp2Go d pre post l.length l

/-- JavaScript regex word character: [A-Za-z0-9_]. -/
def isWordChar (c : Char) : Bool := c.isAlpha || c.isDigit || c == '_'

/-- A word boundary holds at the scan position when the previous character is
absent or not a word character (matches can only start at word characters). -/
def isBoundary : Option Char → Bool
  | none => true
  | some c => !isWordChar c

/-- The negative lookahead `(?![^<]*>)`: it rejects the match exactly when a
greater-than sign occurs in the remainder before any less-than sign. -/
def lookaheadOk (r : List Char) : Bool :=
  !((r.takeWhile (fun c => c != '<')).contains '>')

/-- Attempt the filename regex at the head of the list (word boundary before
the head already checked by the caller): greedy word-character stem starting
with a letter or underscore, a dot, a 1 to 4 letter extension followed by a
word boundary, and the negative lookahead. Returns the matched token and the
remainder. -/
def matchFilename (r : List Char) : Option (List Char × List Char) :=
  let stem := r.takeWhile isWordChar
  let r1 := r.dropWhile isWordChar
  match stem with
  | [] => none
  | s0 :: _ =>
    if s0.isAlpha || s0 == '_' then
      match r1 with
      | '.' :: r2 =>
        let ext := r2.takeWhile (fun c => c.isAlpha)
        let r3 := r2.dropWhile (fun c => c.isAlpha)
        if decide (1 ≤ ext.length) && decide (ext.length ≤ 4)
            && (match r3 with | [] => true | c :: _ => !isWordChar c)
            && lookaheadOk r3 then
          some (stem ++ '.' :: ext, r3)
        else none
      | _ => none
    else none

/-- The filename auto-highlight pass: scan with the previous original
character as boundary context, wrapping each match. -/
def fileScanGo (pre post : List Char) : Nat → Option Char → List Char → List Char
  | 0, _, l => l
  | _ + 1, _, [] => []
  | fuel + 1, prev, c :: cs =>
    if isBoundary prev then
      match matchFilename (c :: cs) with
      | some (tok, rest) =>
        pre ++ tok ++ post ++ fileScanGo pre post fuel (some (tok.getLastD c)) rest
      | none => c :: fileScanGo pre post fuel (some c) cs
    else c :: fileScanGo pre post fuel (some c) cs

/-- The replacement wrappers of the four passes, as in the source. -/
def strongPre : List Char :=
  "<strong class=\"font-semibold text-gray-900 dark:text-gray-100\">".data

def strongPost : List Char := "</strong>".data

def emPre : List Char := "<em class=\"italic text-gray-800 dark:text-gray-200\">".data

def emPost : List Char := "</em>".data

def codePre : List Char :=
  "<code class=\"bg-gray-100 dark:bg-gray-800 px-1 py-0.5 rounded text-sm font-mono text-red-600 dark:text-red-400\">".data

def codePost : List Char := "</code>".data

def filePre : List Char :=
  "<span class=\"font-mono text-sm bg-gray-100 dark:bg-gray-800 px-1 rounded\">".data

def filePost : List Char := "</span>".data

/-- The backtick character (code point 96). -/
def backtickChar : Char := Char.ofNat 96

/-- `processInlineFormatting`: bold, then italic, then inline code, then
filename highlighting, each pass scanning the full output of the one
before. -/
def processInlineFormatting (s : String) : String :=
  let l1 := replacePair2 '*' strongPre strongPost s.data
  let l2 := replacePair1 '*' emPre emPost l1
  let l3 := replacePair1 backtickChar codePre codePost l2
  String.mk (fileScanGo filePre filePost l3.length none l3)

set_option maxRecDepth 8192

/-- Claim C9 counterexample: for the input consisting of one inline code span
whose content is a filename-like token, the filename pass wraps the token in
a highlight span INSIDE the already-recognized code span content — the
negative lookahead of the filename regex only blocks positions followed by a
greater-than sign before any less-than sign, which protects tag markup but
not code-span contents — so the claim that filename auto-highlighting is
applied only to text outside already-recognized code spans is false at this
input. -/
theorem inline_format_code_span_cex :
    processInlineFormatting "`file.py`"
      = String.mk (codePre ++ filePre ++ "file.py".data ++ filePost ++ codePost) := by
  decide

/-- Claim C9 as amended: the inline-code pass runs before the filename pass,
and the filename lookahead protects tag markup only, so a filename-like
token inside code-span content is still highlighted; the specific example
still holds as claimed — the output for the example input contains the bold
span, the inline-code span, and the highlighted file.py token in that
left-to-right order. -/
theorem inline_format_amended :
    processInlineFormatting "**bold** and `code` in file.py"
      = String.mk (strongPre ++ "bold".data ++ strongPost ++ " and ".data
          ++ codePre ++ "code".data ++ codePost ++ " in ".data
          ++ filePre ++ "file.py".data ++ filePost) := by
  decide
